import Mathlib

/-
  Verification development for the terraform-provider-jiraassets repository.

  The Go sources under internal/provider are shallowly embedded here:
  pure field mappings become Lean functions, the remote API calls
  become explicit parameters (the value the call returned together with an
  optional error), and the Terraform diagnostics channel becomes an
  Except/outcome value.  Terraform framework string and bool values held in
  required or known state fields are modelled as plain String and Bool;
  framework values that the code may leave at their zero value (null) are
  modelled as Option.
-/

namespace JiraAssets

/-- One entry of the object resource attribute set, from
objectAttrResourceModel in object_resource.go (attr_type_id, attr_value). -/
structure ObjectAttrResourceModel where
  attrTypeId : String
  attrValue : String
deriving Repr, DecidableEq

/-- The Terraform state and plan model of the object resource, from
objectResourceModel in object_resource.go. -/
structure ObjectResourceModel where
  workspaceId : String
  globalId : String
  id : String
  label : String
  objectKey : String
  created : String
  updated : String
  hasAvatar : Bool
  typeId : String
  attributes : List ObjectAttrResourceModel
  avatarUuid : String
deriving Repr, DecidableEq

/-- The scalar fields of the remote object returned by the Assets API
(models.ObjectScheme of the go-atlassian client, restricted to the fields
the provider reads). -/
structure ObjectScheme where
  workspaceId : String
  globalId : String
  id : String
  label : String
  objectKey : String
  created : String
  updated : String
  hasAvatar : Bool
deriving Repr, DecidableEq

/-- One remote object attribute as returned by client.Object.Attributes:
its attribute type id and its list of values (each value reduced to the
string the provider reads from it). -/
structure RemoteObjectAttr where
  objectTypeAttributeId : String
  objectAttributeValues : List String
deriving Repr, DecidableEq

/-- models.ObjectPayloadAttributeScheme: one attribute entry of the payload
sent on Create and Update. -/
structure ObjectPayloadAttributeScheme where
  objectTypeAttributeID : String
  objectAttributeValues : List String
deriving Repr, DecidableEq

/-- models.ObjectPayloadScheme: the payload sent on Create and Update. -/
structure ObjectPayloadScheme where
  objectTypeID : String
  attributes : List ObjectPayloadAttributeScheme
  hasAvatar : Bool
  avatarUUID : String
deriving Repr, DecidableEq

/-- Builds the API payload from the plan.  Embeds the attribute loop and
payload literal that appear identically in objectResource.Create
(object_resource.go lines 159 to 177) and objectResource.Update
(lines 306 to 324): one payload attribute per plan attribute, carrying the
attribute type id and the singleton list of the configured value, plus the
type id, has-avatar flag and avatar uuid. -/
def buildObjectPayload (plan : ObjectResourceModel) : ObjectPayloadScheme :=
  { objectTypeID := plan.typeId
  , attributes := plan.attributes.map (fun attr =>
      { objectTypeAttributeID := attr.attrTypeId
      , objectAttributeValues := [attr.attrValue] })
  , hasAvatar := plan.hasAvatar
  , avatarUUID := plan.avatarUuid }

/-- Outcome of the object resource Read handler: a diagnostic (AddError and
return), a Go runtime panic (index out of range), or the new state written
by resp.State.Set. -/
inductive ReadOutcome where
  | diag (message : String)
  | indexPanic
  | ok (state : ObjectResourceModel)
deriving Repr, DecidableEq

/-- Inner loop of the Read reconciliation (object_resource.go lines 267 to
274): for one remote attribute, walk the state attribute list and append
one reconciled entry per state attribute whose attr_type_id matches.  The
value copied is attr.ObjectAttributeValues[0].Value, an unguarded index:
when a match fires and the remote value list is empty the Go code panics,
modelled by none. -/
def reconcileOne (stateAttrs : List ObjectAttrResourceModel)
    (attr : RemoteObjectAttr) : Option (List ObjectAttrResourceModel) :=
  match stateAttrs with
  | [] => some []
  | s :: rest =>
    if s.attrTypeId = attr.objectTypeAttributeId then
      match attr.objectAttributeValues with
      | [] => none
      | v :: _ =>
        match reconcileOne rest attr with
        | none => none
        | some l =>
          some ({ attrTypeId := attr.objectTypeAttributeId, attrValue := v } :: l)
    else
      reconcileOne rest attr

/-- Outer loop of the Read reconciliation (object_resource.go lines 262 to
275): iterate over the remote attribute list in order, appending the
entries produced for each remote attribute; none propagates the panic. -/
def reconcileAttrs (stateAttrs : List ObjectAttrResourceModel)
    (remoteAttrs : List RemoteObjectAttr) : Option (List ObjectAttrResourceModel) :=
  match remoteAttrs with
  | [] => some []
  | attr :: rest =>
    match reconcileOne stateAttrs attr with
    | none => none
    | some first =>
      match reconcileAttrs stateAttrs rest with
      | none => none
      | some tail => some (first ++ tail)

/-- objectResource.Read (object_resource.go lines 216 to 291).  The two
remote calls client.Object.Get and client.Object.Attributes are passed in
as their returned value and optional error, checked in source order.  On
success the state attributes are replaced by the reconciled list and the
scalar fields workspace_id, global_id, id, label, object_key and
has_avatar are overwritten from the remote object; the created and updated
fields are not assigned in this handler and keep their prior state
values. -/
def objectResourceRead (state : ObjectResourceModel)
    (object : ObjectScheme) (objectErr : Option String)
    (remoteAttrs : List RemoteObjectAttr) (attrsErr : Option String) : ReadOutcome :=
  match objectErr with
  | some e => .diag e
  | none =>
    match attrsErr with
    | some e => .diag e
    | none =>
      match reconcileAttrs state.attributes remoteAttrs with
      | none => .indexPanic
      | some attributes =>
        .ok { state with
              attributes := attributes
            , workspaceId := object.workspaceId
            , globalId := object.globalId
            , id := object.id
            , label := object.label
            , objectKey := object.objectKey
            , hasAvatar := object.hasAvatar }

/-- objectResource.Create (object_resource.go lines 150 to 213).  The
remote call client.Object.Create is passed in as a function from the sent
payload to the returned object and optional error.  On error the handler
adds a diagnostic and returns without calling resp.State.Set, modelled as
Except.error; on success every server-computed scalar field of the plan is
populated from the response and the result is written to state. -/
def objectResourceCreate (plan : ObjectResourceModel)
    (server : ObjectPayloadScheme → ObjectScheme × Option String) :
    Except String ObjectResourceModel :=
  let payload := buildObjectPayload plan
  match server payload with
  | (_, some e) => .error e
  | (object, none) =>
    .ok { plan with
          workspaceId := object.workspaceId
        , globalId := object.globalId
        , id := object.id
        , label := object.label
        , objectKey := object.objectKey
        , created := object.created
        , updated := object.updated
        , hasAvatar := object.hasAvatar }

/-- objectResource.Update (object_resource.go lines 294 to 363).  Builds
the same payload as Create from the current plan, sends it, and on success
overwrites all server-computed scalar fields from the response. -/
def objectResourceUpdate (plan : ObjectResourceModel)
    (server : ObjectPayloadScheme → ObjectScheme × Option String) :
    Except String ObjectResourceModel :=
  let payload := buildObjectPayload plan
  match server payload with
  | (_, some e) => .error e
  | (object, none) =>
    .ok { plan with
          workspaceId := object.workspaceId
        , globalId := object.globalId
        , id := object.id
        , label := object.label
        , objectKey := object.objectKey
        , created := object.created
        , updated := object.updated
        , hasAvatar := object.hasAvatar }

/-- The scalar fields of the remote object schema returned by
client.ObjectSchema.Get (models.ObjectSchemaScheme of the go-atlassian
client, restricted to the fields the provider reads). -/
structure ObjectSchemaScheme where
  workspaceId : String
  globalId : String
  id : String
  name : String
  objectSchemaKey : String
  status : String
  description : String
  created : String
  updated : String
  objectCount : Int
  objectTypeCount : Int
  canManage : Bool
deriving Repr, DecidableEq

/-- The Terraform state model of the object schema data source, from
objectSchemaDataSourceModel in object_schema_datasource.go.  Every field is
Option because the struct literal the Read handler builds may leave a field
at the framework zero value, which is null. -/
structure ObjectSchemaDataSourceModel where
  workspaceId : Option String
  globalId : Option String
  id : Option String
  name : Option String
  objectSchemaKey : Option String
  status : Option String
  description : Option String
  created : Option String
  updated : Option String
  objectCount : Option Int
  objectTypeCount : Option Int
  canManage : Option Bool
  idAsInt : Option Int
deriving Repr, DecidableEq

/-- The struct literal built by objectSchemaDataSource.Read on the success
path (object_schema_datasource.go lines 131 to 144).  Twelve fields of the
literal are assigned from the response; the IdAsInt field is absent from
the literal, so it stays at the zero value of types.Int64, which is
null. -/
def objectSchemaReadState (schema : ObjectSchemaScheme) : ObjectSchemaDataSourceModel :=
  { workspaceId := some schema.workspaceId
  , globalId := some schema.globalId
  , id := some schema.id
  , name := some schema.name
  , objectSchemaKey := some schema.objectSchemaKey
  , status := some schema.status
  , description := some schema.description
  , created := some schema.created
  , updated := some schema.updated
  , objectCount := some schema.objectCount
  , objectTypeCount := some schema.objectTypeCount
  , canManage := some schema.canManage
  , idAsInt := none }

/-- Diagnostic summary used by the data source when the status code check
fails (object_schema_datasource.go line 125). -/
def unexpectedStatusDiag : String := "Unexpected HTTP status code from Assets API"

/-- objectSchemaDataSource.Read (object_schema_datasource.go lines 99 to
152).  The remote call client.ObjectSchema.Get is passed in as the
returned schema, the response status code and the optional error.  The
handler fails when the call errors, then fails when the status code is not
exactly 200, and only otherwise builds the state literal and writes it. -/
def objectSchemaDataSourceRead (stateId : String) (schema : ObjectSchemaScheme)
    (statusCode : Nat) (err : Option String) :
    Except String ObjectSchemaDataSourceModel :=
  match err with
  | some e => .error e
  | none =>
    if statusCode ≠ 200 then
      .error unexpectedStatusDiag
    else
      .ok (objectSchemaReadState schema)

/-- True exactly when the handler returned an error diagnostic instead of
writing state. -/
def exceptFailed {α : Type} : Except String α → Bool
  | .error _ => true
  | .ok _ => false

/-- The part of the Assets client touched by provider configuration: the
basic-auth credential pair installed by Auth.SetBasicAuth, absent on a
freshly constructed client. -/
structure AssetsClient where
  basicAuth : Option (String × String)
deriving Repr, DecidableEq

/-- client.Auth.SetBasicAuth(user, password). -/
def setBasicAuth (c : AssetsClient) (user password : String) : AssetsClient :=
  { c with basicAuth := some (user, password) }

/-- JiraAssetsProviderModel: the three provider configuration attributes,
each either null (none) or a known string.  Unknown values are rejected by
an earlier guard in Configure that is outside the fragment modelled
here. -/
structure JiraAssetsProviderModel where
  workspaceId : Option String
  user : Option String
  password : Option String
deriving Repr, DecidableEq

/-- The three process environment variables read by Configure
(JIRAASSETS_WORKSPACE_ID, JIRAASSETS_USER, JIRAASSETS_PASSWORD);
os.Getenv yields the empty string when a variable is unset. -/
structure ProviderEnv where
  envWorkspaceId : String
  envUser : String
  envPassword : String
deriving Repr, DecidableEq

/-- JiraAssetsProviderClient: the value published to every resource and
data source through resp.DataSourceData and resp.ResourceData. -/
structure JiraAssetsProviderClient where
  client : AssetsClient
  workspaceId : String
deriving Repr, DecidableEq

/-- The observable outcome of JiraAssetsProvider.Configure: the collected
diagnostics, the data published to data sources and to resources (none
when Configure returned before publishing), and whether the handler hit a
nil-pointer panic in SetBasicAuth. -/
structure ConfigureResponse where
  diagnostics : List String
  dataSourceData : Option JiraAssetsProviderClient
  resourceData : Option JiraAssetsProviderClient
  panicked : Bool
deriving Repr, DecidableEq

/-- Environment default overridden by a non-null configuration value
(provider Configure, lines 124 to 140 of the provider source): the
explicit value wins whenever it is present, otherwise the environment
variable value is used. -/
def resolveValue (explicit : Option String) (envValue : String) : String :=
  match explicit with
  | some v => v
  | none => envValue

/-- Diagnostic summary for a missing workspace id. -/
def missingWorkspaceIdDiag : String := "Missing Assets API Workspace Id"

/-- Diagnostic summary for a missing user. -/
def missingUserDiag : String := "Missing Assets API User"

/-- Diagnostic summary for a missing password. -/
def missingPasswordDiag : String := "Missing Assets API Password"

/-- Diagnostic summary added when assets.New returns an error. -/
def clientCreateDiag : String := "Unable to create Assets client"

/-- The per-field missing-value diagnostics collected by Configure (lines
142 to 172 of the provider source): one AddAttributeError per empty
resolved field, appended in workspace id, user, password order. -/
def missingDiags (workspaceId user password : String) : List String :=
  (if workspaceId = "" then [missingWorkspaceIdDiag] else []) ++
  (if user = "" then [missingUserDiag] else []) ++
  (if password = "" then [missingPasswordDiag] else [])

/-- JiraAssetsProvider.Configure from the resolution step onward (provider
source lines 124 to 208).  The call assets.New(nil, "") is passed in as
the client it returned (none models a nil client pointer) and its optional
error.  After the missing-field check Configure does not return early: an
assets.New error only adds a diagnostic, after which the code always calls
client.Auth.SetBasicAuth, which panics on a nil client, and otherwise
publishes the client and workspace id to both DataSourceData and
ResourceData. -/
def jiraAssetsConfigure (config : JiraAssetsProviderModel) (env : ProviderEnv)
    (newClient : Option AssetsClient) (newErr : Option String) : ConfigureResponse :=
  let workspaceId := resolveValue config.workspaceId env.envWorkspaceId
  let user := resolveValue config.user env.envUser
  let password := resolveValue config.password env.envPassword
  let missing := missingDiags workspaceId user password
  if missing.isEmpty then
    let diags := match newErr with
      | some _ => [clientCreateDiag]
      | none => []
    match newClient with
    | none =>
      { diagnostics := diags, dataSourceData := none, resourceData := none, panicked := true }
    | some c =>
      let providerClient : JiraAssetsProviderClient :=
        { client := setBasicAuth c user password, workspaceId := workspaceId }
      { diagnostics := diags
      , dataSourceData := some providerClient
      , resourceData := some providerClient
      , panicked := false }
  else
    { diagnostics := missing, dataSourceData := none, resourceData := none, panicked := false }

/-- Every entry produced by the inner reconciliation loop carries an
attribute type id that already appears in the state attribute list. -/
lemma reconcileOne_mem_tracked (stateAttrs : List ObjectAttrResourceModel)
    (attr : RemoteObjectAttr) (out : List ObjectAttrResourceModel)
    (h : reconcileOne stateAttrs attr = some out) :
    ∀ x ∈ out, ∃ p ∈ stateAttrs, p.attrTypeId = x.attrTypeId := by
  induction stateAttrs generalizing out with
  | nil =>
    simp only [reconcileOne, Option.some.injEq] at h
    subst h
    simp
  | cons s rest ih =>
    simp only [reconcileOne] at h
    by_cases hm : s.attrTypeId = attr.objectTypeAttributeId
    · rw [if_pos hm] at h
      cases hv : attr.objectAttributeValues with
      | nil => rw [hv] at h; exact absurd h (by simp)
      | cons v vs =>
        rw [hv] at h
        cases hr : reconcileOne rest attr with
        | none => rw [hr] at h; exact absurd h (by simp)
        | some l =>
          rw [hr] at h
          simp only [Option.some.injEq] at h
          subst h
          intro x hx
          rcases List.mem_cons.mp hx with hx | hx
          · exact ⟨s, List.mem_cons_self .., by rw [hx, hm]⟩
          · rcases ih l hr x hx with ⟨p, hp, hpe⟩
            exact ⟨p, List.mem_cons_of_mem _ hp, hpe⟩
    · rw [if_neg hm] at h
      intro x hx
      rcases ih out h x hx with ⟨p, hp, hpe⟩
      exact ⟨p, List.mem_cons_of_mem _ hp, hpe⟩

/-- Every entry produced by the full reconciliation carries an attribute
type id that already appears in the state attribute list. -/
lemma reconcileAttrs_mem_tracked (stateAttrs : List ObjectAttrResourceModel)
    (remoteAttrs : List RemoteObjectAttr) (out : List ObjectAttrResourceModel)
    (h : reconcileAttrs stateAttrs remoteAttrs = some out) :
    ∀ x ∈ out, ∃ p ∈ stateAttrs, p.attrTypeId = x.attrTypeId := by
  induction remoteAttrs generalizing out with
  | nil =>
    simp only [reconcileAttrs, Option.some.injEq] at h
    subst h
    simp
  | cons attr rest ih =>
    simp only [reconcileAttrs] at h
    cases hfirst : reconcileOne stateAttrs attr with
    | none => rw [hfirst] at h; exact absurd h (by simp)
    | some first =>
      rw [hfirst] at h
      cases htail : reconcileAttrs stateAttrs rest with
      | none => rw [htail] at h; exact absurd h (by simp)
      | some tail =>
        rw [htail] at h
        simp only [Option.some.injEq] at h
        subst h
        intro x hx
        rcases List.mem_append.mp hx with hx | hx
        · exact reconcileOne_mem_tracked stateAttrs attr first hfirst x hx
        · exact ih tail htail x hx

/-- The inner reconciliation loop cannot panic when the remote attribute
either matches no state attribute or has a non-empty value list. -/
lemma reconcileOne_isSome (stateAttrs : List ObjectAttrResourceModel)
    (attr : RemoteObjectAttr)
    (h : (∃ p ∈ stateAttrs, p.attrTypeId = attr.objectTypeAttributeId) →
         attr.objectAttributeValues ≠ []) :
    (reconcileOne stateAttrs attr).isSome = true := by
  induction stateAttrs with
  | nil => simp [reconcileOne]
  | cons s rest ih =>
    simp only [reconcileOne]
    by_cases hm : s.attrTypeId = attr.objectTypeAttributeId
    · rw [if_pos hm]
      cases hv : attr.objectAttributeValues with
      | nil => exact absurd hv (h ⟨s, List.mem_cons_self .., hm⟩)
      | cons v vs =>
        have hrest : (reconcileOne rest attr).isSome = true := by
          apply ih
          intro hex
          rcases hex with ⟨p, hp, hpe⟩
          exact h ⟨p, List.mem_cons_of_mem _ hp, hpe⟩
        cases hr : reconcileOne rest attr with
        | none => rw [hr] at hrest; exact absurd hrest (by simp)
        | some l => simp
    · rw [if_neg hm]
      apply ih
      intro hex
      rcases hex with ⟨p, hp, hpe⟩
      exact h ⟨p, List.mem_cons_of_mem _ hp, hpe⟩

/-- The full reconciliation cannot panic when every remote attribute that
matches a tracked state attribute has a non-empty value list. -/
lemma reconcileAttrs_isSome (stateAttrs : List ObjectAttrResourceModel)
    (remoteAttrs : List RemoteObjectAttr)
    (h : ∀ a ∈ remoteAttrs,
         (∃ p ∈ stateAttrs, p.attrTypeId = a.objectTypeAttributeId) →
         a.objectAttributeValues ≠ []) :
    (reconcileAttrs stateAttrs remoteAttrs).isSome = true := by
  induction remoteAttrs with
  | nil => simp [reconcileAttrs]
  | cons attr rest ih =>
    simp only [reconcileAttrs]
    have h1 : (reconcileOne stateAttrs attr).isSome = true :=
      reconcileOne_isSome stateAttrs attr (h attr (List.mem_cons_self ..))
    have h2 : (reconcileAttrs stateAttrs rest).isSome = true :=
      ih (fun a ha => h a (List.mem_cons_of_mem _ ha))
    cases hr1 : reconcileOne stateAttrs attr with
    | none => rw [hr1] at h1; exact absurd h1 (by simp)
    | some l1 =>
      cases hr2 : reconcileAttrs stateAttrs rest with
      | none => rw [hr2] at h2; exact absurd h2 (by simp)
      | some l2 => simp

/-- C1: for every Read of the object resource that writes state, the
reconciled attribute set contains only attribute type ids already present
in the prior state attribute list; a remote attribute whose type id
matches no tracked state attribute is never added to state, regardless of
the remote attribute list. -/
theorem read_reconciles_only_tracked_attribute_ids
    (state : ObjectResourceModel) (object : ObjectScheme) (objectErr : Option String)
    (remoteAttrs : List RemoteObjectAttr) (attrsErr : Option String)
    (newState : ObjectResourceModel)
    (h : objectResourceRead state object objectErr remoteAttrs attrsErr = .ok newState) :
    ∀ a ∈ newState.attributes, ∃ p ∈ state.attributes, p.attrTypeId = a.attrTypeId := by
  cases objectErr with
  | some e => simp [objectResourceRead] at h
  | none =>
    cases attrsErr with
    | some e => simp [objectResourceRead] at h
    | none =>
      simp only [objectResourceRead] at h
      cases hr : reconcileAttrs state.attributes remoteAttrs with
      | none => rw [hr] at h; exact absurd h (by simp)
      | some attributes =>
        rw [hr] at h
        simp only [ReadOutcome.ok.injEq] at h
        subst h
        intro a ha
        exact reconcileAttrs_mem_tracked state.attributes remoteAttrs attributes hr a ha

/-- Prior state used in the concrete Read instances: one tracked attribute
with type id 1087. -/
def c1State : ObjectResourceModel :=
  { workspaceId := "w", globalId := "g", id := "1", label := "l"
  , objectKey := "k", created := "2020-01-01", updated := "2020-01-02"
  , hasAvatar := false, typeId := "117"
  , attributes := [{ attrTypeId := "1087", attrValue := "My Phone" }]
  , avatarUuid := "" }

/-- Remote object returned by the concrete Get call. -/
def c1Object : ObjectScheme :=
  { workspaceId := "w2", globalId := "g2", id := "1", label := "lab"
  , objectKey := "key", created := "2024-05-05", updated := "2024-06-06"
  , hasAvatar := true }

/-- Remote attribute list holding both an untracked type id and the
tracked one. -/
def c1RemoteAttrs : List RemoteObjectAttr :=
  [ { objectTypeAttributeId := "9999", objectAttributeValues := ["extra"] }
  , { objectTypeAttributeId := "1087", objectAttributeValues := ["My Phone 2"] } ]

/-- State written by Read on the concrete instance: the untracked remote
attribute 9999 is dropped. -/
def c1NewState : ObjectResourceModel :=
  { c1State with
    attributes := [{ attrTypeId := "1087", attrValue := "My Phone 2" }]
  , workspaceId := "w2", globalId := "g2", id := "1", label := "lab"
  , objectKey := "key", hasAvatar := true }

/-- Witness for C1 at a concrete input: the one attribute Read wrote back
on the instance has a type id tracked by the prior state. -/
theorem read_reconciles_only_tracked_attribute_ids_witness :
    ∃ p ∈ c1State.attributes,
      p.attrTypeId = ObjectAttrResourceModel.attrTypeId
        { attrTypeId := "1087", attrValue := "My Phone 2" } :=
  read_reconciles_only_tracked_attribute_ids c1State c1Object none c1RemoteAttrs none
    c1NewState (by decide) { attrTypeId := "1087", attrValue := "My Phone 2" } (by decide)

/-- Prior state used for the C9 instances: one tracked attribute with type
id 1087. -/
def c9State : ObjectResourceModel :=
  { workspaceId := "w", globalId := "g", id := "1", label := "l"
  , objectKey := "k", created := "2020-01-01", updated := "2020-01-02"
  , hasAvatar := false, typeId := "117"
  , attributes := [{ attrTypeId := "1087", attrValue := "My Phone" }]
  , avatarUuid := "" }

/-- Remote object returned by the Get call in the C9 instances. -/
def c9Object : ObjectScheme :=
  { workspaceId := "w", globalId := "g", id := "1", label := "l"
  , objectKey := "k", created := "2020-01-01", updated := "2020-01-02"
  , hasAvatar := false }

/-- Remote attribute list whose tracked entry has an empty value list. -/
def c9RemoteAttrs : List RemoteObjectAttr :=
  [{ objectTypeAttributeId := "1087", objectAttributeValues := [] }]

/-- Remote attribute list satisfying the precondition: the tracked entry
has a value, the untracked empty entry is never indexed. -/
def c9GoodRemoteAttrs : List RemoteObjectAttr :=
  [ { objectTypeAttributeId := "1087", objectAttributeValues := ["My Phone"] }
  , { objectTypeAttributeId := "9999", objectAttributeValues := [] } ]

/-- C9: the object resource Read is total only under the precondition that
every remote attribute whose type id matches a tracked state attribute has
a non-empty value list; under that precondition Read never panics, and on
a concrete remote list with a matching zero-value attribute it panics with
an index out of range instead of returning a diagnostic. -/
theorem read_total_only_with_nonempty_tracked_values
    (state : ObjectResourceModel) (object : ObjectScheme)
    (remoteAttrs : List RemoteObjectAttr)
    (h : ∀ a ∈ remoteAttrs,
         (∃ p ∈ state.attributes, p.attrTypeId = a.objectTypeAttributeId) →
         a.objectAttributeValues ≠ []) :
    objectResourceRead state object none remoteAttrs none ≠ ReadOutcome.indexPanic
    ∧ objectResourceRead c9State c9Object none c9RemoteAttrs none = ReadOutcome.indexPanic := by
  constructor
  · have hs := reconcileAttrs_isSome state.attributes remoteAttrs h
    simp only [objectResourceRead]
    cases hr : reconcileAttrs state.attributes remoteAttrs with
    | none => rw [hr] at hs; exact absurd hs (by simp)
    | some attributes => simp
  · decide

/-- Witness for C9 at a concrete input satisfying the precondition. -/
theorem read_total_only_with_nonempty_tracked_values_witness :
    objectResourceRead c9State c9Object none c9GoodRemoteAttrs none ≠ ReadOutcome.indexPanic
    ∧ objectResourceRead c9State c9Object none c9RemoteAttrs none = ReadOutcome.indexPanic :=
  read_total_only_with_nonempty_tracked_values c9State c9Object c9GoodRemoteAttrs (by decide)

/-- Prior state for the C4 instances, with stale timestamps. -/
def c4State : ObjectResourceModel :=
  { workspaceId := "w", globalId := "g", id := "1", label := "l"
  , objectKey := "k", created := "2020-01-01", updated := "2020-01-02"
  , hasAvatar := false, typeId := "117", attributes := [], avatarUuid := "" }

/-- Remote object for the C4 instances, identical to the prior state
except for fresh created and updated timestamps. -/
def c4Object : ObjectScheme :=
  { workspaceId := "w", globalId := "g", id := "1", label := "l"
  , objectKey := "k", created := "2024-05-05", updated := "2024-06-06"
  , hasAvatar := false }

/-- Counterexample to C4 as stated: on a successful Read whose remote
object carries fresh created and updated timestamps, the state written
back keeps the stale prior timestamps, so not all eight server-computed
scalar fields are overwritten with the latest remote values. -/
theorem read_does_not_refresh_created_updated :
    objectResourceRead c4State c4Object none [] none = ReadOutcome.ok c4State
    ∧ c4State.created ≠ c4Object.created
    ∧ c4State.updated ≠ c4Object.updated := by
  refine ⟨by decide, by decide, by decide⟩

/-- C4 amended: for every successful Read of the object resource, the six
server-computed scalar fields workspace_id, global_id, id, label,
object_key and has_avatar are overwritten with the latest remote values,
while created and updated keep their prior state values. -/
theorem read_overwrites_six_scalars_keeps_timestamps
    (state : ObjectResourceModel) (object : ObjectScheme)
    (remoteAttrs : List RemoteObjectAttr) (newState : ObjectResourceModel)
    (h : objectResourceRead state object none remoteAttrs none = .ok newState) :
    newState.workspaceId = object.workspaceId ∧ newState.globalId = object.globalId
    ∧ newState.id = object.id ∧ newState.label = object.label
    ∧ newState.objectKey = object.objectKey ∧ newState.hasAvatar = object.hasAvatar
    ∧ newState.created = state.created ∧ newState.updated = state.updated := by
  simp only [objectResourceRead] at h
  cases hr : reconcileAttrs state.attributes remoteAttrs with
  | none => rw [hr] at h; exact absurd h (by simp)
  | some attributes =>
    rw [hr] at h
    simp only [ReadOutcome.ok.injEq] at h
    subst h
    exact ⟨rfl, rfl, rfl, rfl, rfl, rfl, rfl, rfl⟩

/-- Witness for the amended C4 at a concrete input. -/
theorem read_overwrites_six_scalars_keeps_timestamps_witness :
    c4State.workspaceId = c4Object.workspaceId ∧ c4State.globalId = c4Object.globalId
    ∧ c4State.id = c4Object.id ∧ c4State.label = c4Object.label
    ∧ c4State.objectKey = c4Object.objectKey ∧ c4State.hasAvatar = c4Object.hasAvatar
    ∧ c4State.created = c4State.created ∧ c4State.updated = c4State.updated :=
  read_overwrites_six_scalars_keeps_timestamps c4State c4Object [] c4State (by decide)

/-- C5: for every Create of the object resource in which the remote
creation call returns an error, the whole operation fails with that
diagnostic and no state is persisted; state is only set after a
successful remote call. -/
theorem create_error_persists_no_state
    (plan : ObjectResourceModel)
    (server : ObjectPayloadScheme → ObjectScheme × Option String) (e : String)
    (h : (server (buildObjectPayload plan)).2 = some e) :
    objectResourceCreate plan server = .error e := by
  simp only [objectResourceCreate]
  cases hs : server (buildObjectPayload plan) with
  | mk object err =>
    have he : err = some e := by rw [hs] at h; exact h
    subst he
    rfl

/-- Plan used in the concrete Create instance. -/
def c5Plan : ObjectResourceModel :=
  { workspaceId := "", globalId := "", id := "", label := ""
  , objectKey := "", created := "", updated := ""
  , hasAvatar := false, typeId := "117"
  , attributes := [{ attrTypeId := "1087", attrValue := "My Phone" }]
  , avatarUuid := "" }

/-- Placeholder object accompanying the failed remote Create call. -/
def c5Object : ObjectScheme :=
  { workspaceId := "", globalId := "", id := "", label := ""
  , objectKey := "", created := "", updated := "", hasAvatar := false }

/-- Remote Create call that always fails. -/
def c5Server : ObjectPayloadScheme → ObjectScheme × Option String :=
  fun _ => (c5Object, some "connection refused")

/-- Witness for C5 at a concrete input. -/
theorem create_error_persists_no_state_witness :
    objectResourceCreate c5Plan c5Server = .error "connection refused" :=
  create_error_persists_no_state c5Plan c5Server "connection refused" rfl

/-- C8: for every Update of the object resource, the payload sent to the
remote API contains exactly one attribute entry per attribute in the
current plan, each carrying that attribute type id and its value as a
singleton value list, plus the type id, has-avatar flag and avatar uuid;
every entry originates from a plan attribute and none carries an empty
value list, so no deletion marker is sent for attributes absent from the
plan. -/
theorem update_payload_one_entry_per_plan_attribute (plan : ObjectResourceModel) :
    (buildObjectPayload plan).attributes.length = plan.attributes.length
    ∧ (∀ i : Nat, (buildObjectPayload plan).attributes[i]? =
        (plan.attributes[i]?).map (fun a =>
          { objectTypeAttributeID := a.attrTypeId
          , objectAttributeValues := [a.attrValue] }))
    ∧ (buildObjectPayload plan).objectTypeID = plan.typeId
    ∧ (buildObjectPayload plan).hasAvatar = plan.hasAvatar
    ∧ (buildObjectPayload plan).avatarUUID = plan.avatarUuid
    ∧ (∀ pa ∈ (buildObjectPayload plan).attributes,
        ∃ a ∈ plan.attributes,
          pa.objectTypeAttributeID = a.attrTypeId
          ∧ pa.objectAttributeValues = [a.attrValue])
    ∧ (∀ pa ∈ (buildObjectPayload plan).attributes, pa.objectAttributeValues ≠ []) := by
  refine ⟨by simp [buildObjectPayload], ?_, rfl, rfl, rfl, ?_, ?_⟩
  · intro i
    simp [buildObjectPayload, List.getElem?_map]
  · intro pa hpa
    simp only [buildObjectPayload, List.mem_map] at hpa
    rcases hpa with ⟨a, ha, rfl⟩
    exact ⟨a, ha, rfl, rfl⟩
  · intro pa hpa
    simp only [buildObjectPayload, List.mem_map] at hpa
    rcases hpa with ⟨a, ha, rfl⟩
    simp

/-- Remote schema returned by the concrete ObjectSchema.Get call. -/
def c2Schema : ObjectSchemaScheme :=
  { workspaceId := "w", globalId := "g", id := "100", name := "IT Assets"
  , objectSchemaKey := "ITA", status := "Ok", description := "d"
  , created := "c", updated := "u", objectCount := 5, objectTypeCount := 3
  , canManage := true }

/-- Counterexample to C2 as stated: a Read of schema id 100 with a 200
response and no error succeeds, yet the state it writes carries a null
id_as_int, so the twelfth computed scalar field is not populated from the
response. -/
theorem object_schema_read_leaves_id_as_int_null :
    objectSchemaDataSourceRead "100" c2Schema 200 none
      = .ok (objectSchemaReadState c2Schema)
    ∧ (objectSchemaReadState c2Schema).idAsInt = none :=
  ⟨rfl, rfl⟩

/-- C2 amended: on a Read with HTTP status exactly 200 and no call error,
eleven of the twelve computed scalar fields together with the id are
populated from the response while id_as_int is left null; on a call error
or any other status code the read fails and writes no state. -/
theorem object_schema_read_populates_eleven_fields
    (stateId : String) (schema : ObjectSchemaScheme)
    (statusCode : Nat) (err : Option String) :
    objectSchemaDataSourceRead stateId schema 200 none = .ok
      { workspaceId := some schema.workspaceId
      , globalId := some schema.globalId
      , id := some schema.id
      , name := some schema.name
      , objectSchemaKey := some schema.objectSchemaKey
      , status := some schema.status
      , description := some schema.description
      , created := some schema.created
      , updated := some schema.updated
      , objectCount := some schema.objectCount
      , objectTypeCount := some schema.objectTypeCount
      , canManage := some schema.canManage
      , idAsInt := none }
    ∧ (err.isSome = true ∨ statusCode ≠ 200 →
        ∃ msg, objectSchemaDataSourceRead stateId schema statusCode err = .error msg) := by
  constructor
  · rfl
  · intro hfail
    cases err with
    | some e => exact ⟨e, rfl⟩
    | none =>
      rcases hfail with hsome | hne
      · simp at hsome
      · refine ⟨unexpectedStatusDiag, ?_⟩
        simp only [objectSchemaDataSourceRead]
        rw [if_pos hne]

/-- Witness for the amended C2: a 404 response fails the read. -/
theorem object_schema_read_populates_eleven_fields_witness :
    ∃ msg, objectSchemaDataSourceRead "100" c2Schema 404 none = .error msg :=
  (object_schema_read_populates_eleven_fields "100" c2Schema 404 none).2
    (Or.inr (by decide))

/-- C3: the object schema data source Read returns an error exactly when
the underlying call errors or the HTTP status code is not exactly 200; the
check is an equality against 200, so every other status code, including
other 2xx codes such as 201, fails. -/
theorem object_schema_read_fails_iff_error_or_not_200
    (stateId : String) (schema : ObjectSchemaScheme)
    (statusCode : Nat) (err : Option String) :
    exceptFailed (objectSchemaDataSourceRead stateId schema statusCode err) = true
    ↔ (err.isSome = true ∨ statusCode ≠ 200) := by
  cases err with
  | some e => simp [objectSchemaDataSourceRead, exceptFailed]
  | none =>
    by_cases hs : statusCode = 200
    · subst hs
      simp [objectSchemaDataSourceRead, exceptFailed]
    · simp [objectSchemaDataSourceRead, exceptFailed, hs]

/-- The collected missing-field diagnostics are empty exactly when all
three resolved values are non-empty. -/
lemma missingDiags_isEmpty_iff (w u p : String) :
    (missingDiags w u p).isEmpty = true ↔ (w ≠ "" ∧ u ≠ "" ∧ p ≠ "") := by
  by_cases hw : w = "" <;> by_cases hu : u = "" <;> by_cases hp : p = "" <;>
    simp [missingDiags, hw, hu, hp]

/-- One diagnostic is collected per empty resolved field. -/
lemma missingDiags_length (w u p : String) :
    (missingDiags w u p).length =
      (if w = "" then 1 else 0) + (if u = "" then 1 else 0) + (if p = "" then 1 else 0) := by
  by_cases hw : w = "" <;> by_cases hu : u = "" <;> by_cases hp : p = "" <;>
    simp [missingDiags, hw, hu, hp]

/-- The collected missing-field diagnostics are pairwise distinct. -/
lemma missingDiags_nodup (w u p : String) : (missingDiags w u p).Nodup := by
  by_cases hw : w = "" <;> by_cases hu : u = "" <;> by_cases hp : p = "" <;>
    simp [missingDiags, hw, hu, hp, missingWorkspaceIdDiag, missingUserDiag,
      missingPasswordDiag]

/-- The workspace id diagnostic appears exactly when the resolved
workspace id is empty. -/
lemma missingWorkspaceIdDiag_mem_iff (w u p : String) :
    missingWorkspaceIdDiag ∈ missingDiags w u p ↔ w = "" := by
  by_cases hw : w = "" <;> by_cases hu : u = "" <;> by_cases hp : p = "" <;>
    simp [missingDiags, hw, hu, hp, missingWorkspaceIdDiag, missingUserDiag,
      missingPasswordDiag]

/-- The user diagnostic appears exactly when the resolved user is empty. -/
lemma missingUserDiag_mem_iff (w u p : String) :
    missingUserDiag ∈ missingDiags w u p ↔ u = "" := by
  by_cases hw : w = "" <;> by_cases hu : u = "" <;> by_cases hp : p = "" <;>
    simp [missingDiags, hw, hu, hp, missingWorkspaceIdDiag, missingUserDiag,
      missingPasswordDiag]

/-- The password diagnostic appears exactly when the resolved password is
empty. -/
lemma missingPasswordDiag_mem_iff (w u p : String) :
    missingPasswordDiag ∈ missingDiags w u p ↔ p = "" := by
  by_cases hw : w = "" <;> by_cases hu : u = "" <;> by_cases hp : p = "" <;>
    simp [missingDiags, hw, hu, hp, missingWorkspaceIdDiag, missingUserDiag,
      missingPasswordDiag]

/-- When a resolved field is empty, Configure aborts in the validation
step: the missing-field diagnostics are returned and nothing downstream of
the check runs. -/
lemma configure_missing_branch (config : JiraAssetsProviderModel) (env : ProviderEnv)
    (newClient : Option AssetsClient) (newErr : Option String)
    (h : ¬ (missingDiags (resolveValue config.workspaceId env.envWorkspaceId)
        (resolveValue config.user env.envUser)
        (resolveValue config.password env.envPassword)).isEmpty = true) :
    jiraAssetsConfigure config env newClient newErr =
      { diagnostics := missingDiags (resolveValue config.workspaceId env.envWorkspaceId)
          (resolveValue config.user env.envUser)
          (resolveValue config.password env.envPassword)
      , dataSourceData := none, resourceData := none, panicked := false } := by
  simp only [jiraAssetsConfigure]
  rw [if_neg h]

/-- C6: for every provider configuration whose workspace id, user and
password each resolve to a non-empty value from the explicit configuration
or the corresponding environment variable, Configure succeeds and
publishes exactly those three resolved values, the workspace id on the
published provider client and the user and password as the basic-auth
pair, with an explicit non-null configuration value taking precedence over
the environment variable for the same field. -/
theorem configure_success_resolves_with_precedence
    (config : JiraAssetsProviderModel) (env : ProviderEnv) (c : AssetsClient)
    (hw : resolveValue config.workspaceId env.envWorkspaceId ≠ "")
    (hu : resolveValue config.user env.envUser ≠ "")
    (hp : resolveValue config.password env.envPassword ≠ "") :
    jiraAssetsConfigure config env (some c) none =
      { diagnostics := []
      , dataSourceData := some
          { client := setBasicAuth c (resolveValue config.user env.envUser)
              (resolveValue config.password env.envPassword)
          , workspaceId := resolveValue config.workspaceId env.envWorkspaceId }
      , resourceData := some
          { client := setBasicAuth c (resolveValue config.user env.envUser)
              (resolveValue config.password env.envPassword)
          , workspaceId := resolveValue config.workspaceId env.envWorkspaceId }
      , panicked := false }
    ∧ (∀ v, config.workspaceId = some v →
        resolveValue config.workspaceId env.envWorkspaceId = v)
    ∧ (∀ v, config.user = some v → resolveValue config.user env.envUser = v)
    ∧ (∀ v, config.password = some v → resolveValue config.password env.envPassword = v) := by
  have hempty : (missingDiags (resolveValue config.workspaceId env.envWorkspaceId)
      (resolveValue config.user env.envUser)
      (resolveValue config.password env.envPassword)).isEmpty = true :=
    (missingDiags_isEmpty_iff _ _ _).mpr ⟨hw, hu, hp⟩
  refine ⟨?_, ?_, ?_, ?_⟩
  · simp only [jiraAssetsConfigure]
    rw [if_pos hempty]
  · intro v hv; simp [resolveValue, hv]
  · intro v hv; simp [resolveValue, hv]
  · intro v hv; simp [resolveValue, hv]

/-- Provider configuration for the C6 instance: explicit workspace id and
password, user left null. -/
def c6Config : JiraAssetsProviderModel :=
  { workspaceId := some "W", user := none, password := some "P" }

/-- Environment for the C6 instance: all three variables set, so the
witness shows the explicit values winning for workspace id and password
and the environment value filling in the user. -/
def c6Env : ProviderEnv :=
  { envWorkspaceId := "EW", envUser := "EU", envPassword := "EP" }

/-- Freshly constructed client for the C6 instance. -/
def c6Client : AssetsClient := { basicAuth := none }

/-- Witness for C6 at a concrete input, showing explicit-over-environment
precedence on workspace id and password and environment fallback on
user. -/
theorem configure_success_resolves_with_precedence_witness :
    jiraAssetsConfigure c6Config c6Env (some c6Client) none =
      { diagnostics := []
      , dataSourceData := some
          { client := { basicAuth := some ("EU", "P") }, workspaceId := "W" }
      , resourceData := some
          { client := { basicAuth := some ("EU", "P") }, workspaceId := "W" }
      , panicked := false } := by
  have h := configure_success_resolves_with_precedence c6Config c6Env c6Client
    (by decide) (by decide) (by decide)
  rw [h.1]
  rfl

/-- C7: for every provider configuration in which any of the three fields
resolves to the empty string after explicit-over-environment resolution,
Configure fails before the client is even consulted, publishing nothing,
with one distinct error diagnostic per missing field and all missing-field
errors collected together; the outcome does not depend on the client
construction result at all. -/
theorem configure_missing_fields_collects_all_errors
    (config : JiraAssetsProviderModel) (env : ProviderEnv)
    (newClient : Option AssetsClient) (newErr : Option String)
    (h : resolveValue config.workspaceId env.envWorkspaceId = ""
       ∨ resolveValue config.user env.envUser = ""
       ∨ resolveValue config.password env.envPassword = "") :
    (jiraAssetsConfigure config env newClient newErr).dataSourceData = none
    ∧ (jiraAssetsConfigure config env newClient newErr).resourceData = none
    ∧ (jiraAssetsConfigure config env newClient newErr).panicked = false
    ∧ (missingWorkspaceIdDiag ∈ (jiraAssetsConfigure config env newClient newErr).diagnostics
        ↔ resolveValue config.workspaceId env.envWorkspaceId = "")
    ∧ (missingUserDiag ∈ (jiraAssetsConfigure config env newClient newErr).diagnostics
        ↔ resolveValue config.user env.envUser = "")
    ∧ (missingPasswordDiag ∈ (jiraAssetsConfigure config env newClient newErr).diagnostics
        ↔ resolveValue config.password env.envPassword = "")
    ∧ (jiraAssetsConfigure config env newClient newErr).diagnostics.length =
        (if resolveValue config.workspaceId env.envWorkspaceId = "" then 1 else 0)
        + (if resolveValue config.user env.envUser = "" then 1 else 0)
        + (if resolveValue config.password env.envPassword = "" then 1 else 0)
    ∧ (jiraAssetsConfigure config env newClient newErr).diagnostics.Nodup
    ∧ (∀ (nc : Option AssetsClient) (ne : Option String),
        jiraAssetsConfigure config env nc ne = jiraAssetsConfigure config env newClient newErr) := by
  have hne : ¬ (missingDiags (resolveValue config.workspaceId env.envWorkspaceId)
      (resolveValue config.user env.envUser)
      (resolveValue config.password env.envPassword)).isEmpty = true := by
    rw [missingDiags_isEmpty_iff]
    rintro ⟨h1, h2, h3⟩
    rcases h with h | h | h <;> contradiction
  have hconf := configure_missing_branch config env newClient newErr hne
  rw [hconf]
  refine ⟨rfl, rfl, rfl, missingWorkspaceIdDiag_mem_iff _ _ _,
    missingUserDiag_mem_iff _ _ _, missingPasswordDiag_mem_iff _ _ _,
    missingDiags_length _ _ _, missingDiags_nodup _ _ _, ?_⟩
  intro nc ne
  rw [configure_missing_branch config env nc ne hne]

/-- Provider configuration for the C7 instance: nothing supplied. -/
def c7Config : JiraAssetsProviderModel :=
  { workspaceId := none, user := none, password := none }

/-- Environment for the C7 instance: all three variables unset, so all
three fields resolve to empty. -/
def c7Env : ProviderEnv := { envWorkspaceId := "", envUser := "", envPassword := "" }

/-- Witness for C7 at a concrete input: three missing fields yield three
diagnostics at once and nothing is published. -/
theorem configure_missing_fields_collects_all_errors_witness :
    (jiraAssetsConfigure c7Config c7Env none none).diagnostics.length = 3
    ∧ (jiraAssetsConfigure c7Config c7Env none none).dataSourceData = none := by
  have h := configure_missing_fields_collects_all_errors c7Config c7Env none none
    (Or.inl rfl)
  rcases h with ⟨h1, h2, h3, h4, h5, h6, h7, h8, h9⟩
  rw [h7]
  exact ⟨by decide, h1⟩

/-- C10: provider Configure does not stop after a client-construction
failure: with all three fields resolved, a construction error only records
its diagnostic, after which Configure still calls SetBasicAuth on the
returned client, panicking on a nil client and otherwise publishing the
client to both resources and data sources; the handler is panic-free
exactly under the precondition that construction returned a client. -/
theorem configure_continues_after_client_error
    (config : JiraAssetsProviderModel) (env : ProviderEnv) (e : String)
    (hw : resolveValue config.workspaceId env.envWorkspaceId ≠ "")
    (hu : resolveValue config.user env.envUser ≠ "")
    (hp : resolveValue config.password env.envPassword ≠ "") :
    ((jiraAssetsConfigure config env none (some e)).diagnostics = [clientCreateDiag]
      ∧ (jiraAssetsConfigure config env none (some e)).panicked = true)
    ∧ (∀ c : AssetsClient,
        (jiraAssetsConfigure config env (some c) (some e)).diagnostics = [clientCreateDiag]
        ∧ (jiraAssetsConfigure config env (some c) (some e)).dataSourceData =
            some { client := setBasicAuth c (resolveValue config.user env.envUser)
                     (resolveValue config.password env.envPassword)
                 , workspaceId := resolveValue config.workspaceId env.envWorkspaceId }
        ∧ (jiraAssetsConfigure config env (some c) (some e)).resourceData =
            (jiraAssetsConfigure config env (some c) (some e)).dataSourceData
        ∧ (jiraAssetsConfigure config env (some c) (some e)).panicked = false)
    ∧ (∀ (c : AssetsClient) (ne : Option String),
        (jiraAssetsConfigure config env (some c) ne).panicked = false) := by
  have hempty : (missingDiags (resolveValue config.workspaceId env.envWorkspaceId)
      (resolveValue config.user env.envUser)
      (resolveValue config.password env.envPassword)).isEmpty = true :=
    (missingDiags_isEmpty_iff _ _ _).mpr ⟨hw, hu, hp⟩
  refine ⟨⟨?_, ?_⟩, ?_, ?_⟩
  · simp only [jiraAssetsConfigure]
    rw [if_pos hempty]
  · simp only [jiraAssetsConfigure]
    rw [if_pos hempty]
  · intro c
    refine ⟨?_, ?_, ?_, ?_⟩ <;>
      (simp only [jiraAssetsConfigure]; rw [if_pos hempty])
  · intro c ne
    cases ne <;> (simp only [jiraAssetsConfigure]; rw [if_pos hempty])

/-- Provider configuration for the C10 instance. -/
def c10Config : JiraAssetsProviderModel :=
  { workspaceId := some "W", user := some "U", password := some "P" }

/-- Environment for the C10 instance. -/
def c10Env : ProviderEnv := { envWorkspaceId := "", envUser := "", envPassword := "" }

/-- Witness for C10 at a concrete input: a construction error with a nil
client records the diagnostic and then panics in SetBasicAuth. -/
theorem configure_continues_after_client_error_witness :
    (jiraAssetsConfigure c10Config c10Env none (some "boom")).panicked = true
    ∧ (jiraAssetsConfigure c10Config c10Env none (some "boom")).diagnostics
        = [clientCreateDiag] := by
  have h := configure_continues_after_client_error c10Config c10Env "boom"
    (by decide) (by decide) (by decide)
  exact ⟨h.1.2, h.1.1⟩

end JiraAssets
